import Mathlib

/-!
Shallow embedding of the uvenv environment registry and activation
subsystem (`src/uvenv/core/manager.py`, `src/uvenv/shell/activate.py`),
together with a spec-modelled `PathManager` (`uvenv/core/paths.py`, whose
source is not present; spec §4.1 describes it).

The filesystem is modelled as an explicit state: the set of environment
root directories that exist under the base directory, and the metadata
files keyed by environment name (the metadata sidecar lives inside the
environment's directory, so removing the directory tree removes the
metadata with it, matching `remove`'s single `shutil.rmtree`).  External
effects (the `uv` toolchain subprocess, metadata-write success, `rmtree`
success, the clock, the `SHELL` variable, `os.name`) are passed in as
explicit parameters.
-/

namespace Uvenv

/-- A small JSON scalar value, enough to model the fields of the metadata
file that `_get_environment_info` reads (`python_version`, `active`) and
that `_create_metadata` writes.  Python truthiness of such a value is
modelled by `JsonValue.truthy`. -/
inductive JsonValue where
  | null
  | bool (b : Bool)
  | num (n : Int)
  | str (s : String)
deriving Repr, DecidableEq

/-- Python truthiness of a JSON scalar (`if metadata.get("active", False):`). -/
def JsonValue.truthy : JsonValue → Bool
  | .null => false
  | .bool b => b
  | .num n => n != 0
  | .str s => !s.isEmpty

/-- The parsed content of a metadata JSON object.  Each field is optional
because `_get_environment_info` reads fields with `dict.get` and a
default.  `_create_metadata` writes all five fields. -/
structure MetaDict where
  nameF : Option JsonValue
  pythonVersionF : Option JsonValue
  createdAtF : Option JsonValue
  lastUsedF : Option JsonValue
  activeF : Option JsonValue
deriving Repr, DecidableEq

/-- A metadata file on disk: either text that fails to load
(`json.JSONDecodeError` / `OSError` on read, both swallowed by
`_get_environment_info`), or a JSON object. -/
inductive MetaFile where
  | corrupt
  | valid (d : MetaDict)
deriving Repr, DecidableEq

/-- The filesystem state under the base directory: which environment root
directories exist, and which metadata files exist (keyed by environment
name; the file itself lives inside the environment's directory). -/
structure FS where
  base : String
  dirs : List String
  meta : List (String × MetaFile)
deriving Repr, DecidableEq

/-- Modelled from the spec: `PathManager.get_env_path` (uvenv/core/paths.py,
not in the sources shown).  Spec §4.1: the environment root path is a pure
function of (base_dir, name). -/
def getEnvPath (base name : String) : String :=
  base ++ "/" ++ name

/-- Modelled from the spec: `PathManager.get_env_bin_path`.  Spec §4.1:
the binary/script subdirectory path of the environment root. -/
def getEnvBinPath (base name : String) : String :=
  getEnvPath base name ++ "/bin"

/-- Modelled from the spec: `PathManager.environment_exists(name)` checks
for presence of the environment root directory on the filesystem. -/
def environmentExists (fs : FS) (name : String) : Bool :=
  fs.dirs.contains name

/-- Modelled from the spec: `PathManager.list_environments` enumerates the
environment directories under the base directory (their names, in the
order the directory enumeration yields them). -/
def listEnvironments (fs : FS) : List String :=
  fs.dirs

/-- The metadata file currently on disk for `name`, if any. -/
def metaLookup (fs : FS) (name : String) : Option MetaFile :=
  (fs.meta.find? (fun p => p.1 == name)).map Prod.snd

/-- Overwrite (or create) the metadata file for `name`. -/
def writeMeta (fs : FS) (name : String) (file : MetaFile) : FS :=
  { fs with meta := (name, file) :: fs.meta.filter (fun p => p.1 != name) }

/-- Create the environment root directory for `name` (the effect of the
toolchain materialising the environment). -/
def addDir (fs : FS) (name : String) : FS :=
  if fs.dirs.contains name then fs
  else { fs with dirs := name :: fs.dirs }

/-- `shutil.rmtree(env_path)`: deletes the environment's directory tree,
and with it the metadata file inside it. -/
def removeDirTree (fs : FS) (name : String) : FS :=
  { fs with
    dirs := fs.dirs.filter (fun d => d != name),
    meta := fs.meta.filter (fun p => p.1 != name) }

/-- Outcome of the external toolchain subprocess
(`uv venv <path> --python <version>`): whether it exited zero, its stderr
text, and whether it left a (possibly partial) environment directory
behind. -/
structure ToolchainResult where
  success : Bool
  stderr : String
  dirCreated : Bool
deriving Repr, DecidableEq

/-- The error taxonomy of the registry (all raised as `RuntimeError` in
the Python source, except `metadataWriteError`, which is the uncaught
`OSError` escaping `_create_metadata`). -/
inductive UvError where
  | alreadyExists (name : String)
  | creationFailed (stderr : String)
  | notFound (name : String)
  | removalFailed (msg : String)
  | metadataWriteError (msg : String)
deriving Repr, DecidableEq

/-- `EnvironmentManager._create_metadata`: the metadata object written for
a fresh environment (`active = false`, `last_used = null`, current
timestamp `now`). -/
def createMetadata (name pythonVersion now : String) : MetaDict :=
  { nameF := some (.str name)
    pythonVersionF := some (.str pythonVersion)
    createdAtF := some (.str now)
    lastUsedF := some .null
    activeF := some (.bool false) }

/-- `EnvironmentManager.create(name, python_version)`.
`tc` is the toolchain subprocess outcome; `writeErr` is `none` when the
metadata write succeeds and `some msg` when it raises `OSError msg`;
`now` is the current timestamp.  On toolchain success the environment
directory has been materialised; then the metadata file is written.  On
toolchain failure (`subprocess.CalledProcessError`) the partially created
directory, if any, is deleted and `CreationFailed` carries the stderr
text.  An `OSError` from the metadata write is not caught by the
`except subprocess.CalledProcessError` clause and propagates with no
rollback. -/
def create (fs : FS) (name pythonVersion : String) (tc : ToolchainResult)
    (writeErr : Option String) (now : String) : Except UvError Unit × FS :=
  if environmentExists fs name then
    (.error (.alreadyExists name), fs)
  else if tc.success then
    let fs1 := addDir fs name
    match writeErr with
    | none =>
        (.ok (), writeMeta fs1 name (.valid (createMetadata name pythonVersion now)))
    | some msg => (.error (.metadataWriteError msg), fs1)
  else
    let fs1 := if tc.dirCreated then addDir fs name else fs
    let fs2 := if environmentExists fs1 name then removeDirTree fs1 name else fs1
    (.error (.creationFailed tc.stderr), fs2)

/-- `EnvironmentManager.remove(name)`.  `rmErr` is `none` when
`shutil.rmtree` succeeds and `some e` when it raises `OSError e`
(surfaced as `RemovalFailed`; no partial-state repair is attempted). -/
def remove (fs : FS) (name : String) (rmErr : Option String) :
    Except UvError Unit × FS :=
  if !environmentExists fs name then
    (.error (.notFound name), fs)
  else
    match rmErr with
    | none => (.ok (), removeDirTree fs name)
    | some e => (.error (.removalFailed e), fs)

/-- A record produced by `EnvironmentManager.list` /
`_get_environment_info`: exactly the four fields `name`, `path`,
`python_version`, `status`. -/
structure EnvInfo where
  name : String
  path : String
  pythonVersion : JsonValue
  status : String
deriving Repr, DecidableEq

/-- `EnvironmentManager._get_environment_info(name)`: starts from the
default record (`python_version = "unknown"`, `status = "inactive"`);
if the metadata file exists and loads as a JSON object, overrides
`python_version` with `metadata.get("python_version", "unknown")` and
`status` with `"active"`/`"inactive"` from the truthiness of
`metadata.get("active", False)`.  A missing or unloadable file leaves the
defaults (the exception is swallowed); this function never raises. -/
def getEnvironmentInfo (fs : FS) (name : String) : EnvInfo :=
  match metaLookup fs name with
  | some (.valid d) =>
      { name := name
        path := getEnvPath fs.base name
        pythonVersion := d.pythonVersionF.getD (.str "unknown")
        status := if (d.activeF.getD (.bool false)).truthy then "active" else "inactive" }
  | _ =>
      { name := name
        path := getEnvPath fs.base name
        pythonVersion := .str "unknown"
        status := "inactive" }

/-- `EnvironmentManager.list()`: one record per environment directory
under the base directory. -/
def listEnvs (fs : FS) : List EnvInfo :=
  (listEnvironments fs).map (getEnvironmentInfo fs)

/-- The `active` field governing a record's `status`: the metadata
object's `active` value when the file exists and loads, `false`
otherwise. -/
def activeField (fs : FS) (name : String) : JsonValue :=
  match metaLookup fs name with
  | some (.valid d) => d.activeF.getD (.bool false)
  | _ => .bool false

/-- Does `pat` match at the head of `s`? (helper for substring search). -/
def leadsWith : List Char → List Char → Bool
  | [], _ => true
  | _ :: _, [] => false
  | p :: ps, c :: cs => p == c && leadsWith ps cs

/-- Does `pat` occur inside `s`? (helper for substring search). -/
def containsList (pat : List Char) : List Char → Bool
  | [] => leadsWith pat []
  | c :: cs => leadsWith pat (c :: cs) || containsList pat cs

/-- Python's `pat in s` substring containment on strings. -/
def containsStr (s pat : String) : Bool :=
  containsList pat.data s.data

/-- `ActivationManager._detect_shell`: consults the `SHELL` environment
variable (`shellEnv`, empty string when unset), then `os.name == "nt"`
(`osIsNt`), with `"bash"` as the final default. -/
def detectShell (shellEnv : String) (osIsNt : Bool) : String :=
  if containsStr shellEnv "bash" then "bash"
  else if containsStr shellEnv "zsh" then "zsh"
  else if containsStr shellEnv "fish" then "fish"
  else if osIsNt then "powershell"
  else "bash"

/-- `ActivationManager._generate_bash_script`. -/
def generateBashScript (binPath : String) : String :=
  "source " ++ binPath ++ "/activate"

/-- `ActivationManager._generate_fish_script`. -/
def generateFishScript (binPath : String) : String :=
  "source " ++ binPath ++ "/activate.fish"

/-- `ActivationManager._generate_powershell_script`. -/
def generatePowershellScript (binPath : String) : String :=
  "& " ++ binPath ++ "/Activate.ps1"

/-- `ActivationManager.get_activation_script(name, shell)`: fails with
`NotFound` if the environment does not exist; otherwise dispatches on the
given shell (auto-detected when `none`) to one of the three script
generators, defaulting to the bash-compatible one. -/
def getActivationScript (fs : FS) (name : String) (shell : Option String)
    (shellEnv : String) (osIsNt : Bool) : Except UvError String :=
  if !environmentExists fs name then
    .error (.notFound name)
  else
    let sh := shell.getD (detectShell shellEnv osIsNt)
    let bin := getEnvBinPath fs.base name
    if sh == "bash" || sh == "zsh" then .ok (generateBashScript bin)
    else if sh == "fish" then .ok (generateFishScript bin)
    else if sh == "powershell" then .ok (generatePowershellScript bin)
    else .ok (generateBashScript bin)

/-- `ActivationManager.get_deactivation_script(shell)`: dispatches on the
given shell (auto-detected when `none`), every branch returning the
literal `"deactivate"`. -/
def getDeactivationScript (shell : Option String) (shellEnv : String)
    (osIsNt : Bool) : String :=
  let sh := shell.getD (detectShell shellEnv osIsNt)
  if sh == "bash" || sh == "zsh" then "deactivate"
  else if sh == "fish" then "deactivate"
  else if sh == "powershell" then "deactivate"
  else "deactivate"

/-! ## Helper lemmas -/

theorem name_getEnvironmentInfo (fs : FS) (n : String) :
    (getEnvironmentInfo fs n).name = n := by
  unfold getEnvironmentInfo
  split <;> rfl

theorem base_getEnvironmentInfo (fs : FS) (n : String) :
    (getEnvironmentInfo fs n).path = getEnvPath fs.base n := by
  unfold getEnvironmentInfo
  split <;> rfl

theorem environmentExists_removeDirTree (fs : FS) (n : String) :
    environmentExists (removeDirTree fs n) n = false := by
  simp [environmentExists, removeDirTree, List.contains, List.mem_filter]

theorem metaLookup_removeDirTree (fs : FS) (n : String) :
    metaLookup (removeDirTree fs n) n = none := by
  simp [metaLookup, removeDirTree, List.find?_eq_none, List.mem_filter]

theorem environmentExists_addDir_self (fs : FS) (n : String) :
    environmentExists (addDir fs n) n = true := by
  unfold environmentExists addDir
  split
  · assumption
  · simp [List.contains]

theorem meta_addDir (fs : FS) (n : String) : (addDir fs n).meta = fs.meta := by
  unfold addDir
  split <;> rfl

theorem base_addDir (fs : FS) (n : String) : (addDir fs n).base = fs.base := by
  unfold addDir
  split <;> rfl

theorem not_mem_of_not_exists (fs : FS) (n : String)
    (h : environmentExists fs n = false) : n ∉ fs.dirs := by
  simp [environmentExists, List.contains] at h
  exact h

theorem dirs_addDir_not_exists (fs : FS) (n : String)
    (h : environmentExists fs n = false) : (addDir fs n).dirs = n :: fs.dirs := by
  have h' : n ∉ fs.dirs := not_mem_of_not_exists fs n h
  unfold addDir
  simp [h']

theorem metaLookup_writeMeta_self (fs : FS) (n : String) (f : MetaFile) :
    metaLookup (writeMeta fs n f) n = some f := by
  simp [metaLookup, writeMeta, List.find?_cons_of_pos]

/-- If `n` is not among the directory names `l`, no record produced for
them has name `n`. -/
theorem filter_name_eq_nil (g : FS) (n : String) :
    ∀ l : List String, n ∉ l →
      (l.map (getEnvironmentInfo g)).filter (fun r => r.name == n) = [] := by
  intro l
  induction l with
  | nil => intro _; rfl
  | cons d ds ih =>
      intro h
      have hd : d ≠ n := fun hdn => h (hdn ▸ List.mem_cons_self d ds)
      have hds : n ∉ ds := fun hmem => h (List.mem_cons_of_mem d hmem)
      simp only [List.map_cons, List.filter_cons]
      rw [name_getEnvironmentInfo]
      simp [hd, ih hds]

/-! ## Claim theorems -/

/-- C3: `create` on an existing name always fails with `AlreadyExists`,
returns the filesystem state unchanged (directory and metadata of the
existing environment untouched), and does so for every toolchain outcome
and metadata-write outcome — the check happens before the subprocess is
invoked and before any file is written. -/
theorem create_already_exists (fs : FS) (name pythonVersion : String)
    (tc : ToolchainResult) (writeErr : Option String) (now : String)
    (h : environmentExists fs name = true) :
    create fs name pythonVersion tc writeErr now =
      (.error (.alreadyExists name), fs) := by
  unfold create
  simp [h]

/-- Witness for C3 at a concrete state with an existing environment. -/
theorem create_already_exists_witness :
    create ⟨"base", ["demo"], []⟩ "demo" "3.12" ⟨true, "", true⟩ none "t0" =
      (.error (.alreadyExists "demo"), ⟨"base", ["demo"], []⟩) :=
  create_already_exists ⟨"base", ["demo"], []⟩ "demo" "3.12" ⟨true, "", true⟩
    none "t0" (by decide)

/-- C6: reading environment info when the metadata file is missing, or
when its contents fail to load (`json.JSONDecodeError` / `OSError`, both
swallowed), yields the default record with `python_version = "unknown"`
and `status = "inactive"`; `getEnvironmentInfo` is a total function, so
no error is surfaced. -/
theorem environment_info_defaults (fs : FS) (name : String)
    (h : metaLookup fs name = none ∨ metaLookup fs name = some .corrupt) :
    getEnvironmentInfo fs name =
      { name := name
        path := getEnvPath fs.base name
        pythonVersion := .str "unknown"
        status := "inactive" } := by
  unfold getEnvironmentInfo
  rcases h with h | h <;> rw [h]

/-- Witness for C6: a directory with no metadata file, and one with a
corrupt metadata file, both yield the default record. -/
theorem environment_info_defaults_witness :
    getEnvironmentInfo ⟨"base", ["demo"], []⟩ "demo" =
      { name := "demo", path := getEnvPath "base" "demo",
        pythonVersion := .str "unknown", status := "inactive" }
    ∧ getEnvironmentInfo ⟨"base", ["demo"], [("demo", .corrupt)]⟩ "demo" =
      { name := "demo", path := getEnvPath "base" "demo",
        pythonVersion := .str "unknown", status := "inactive" } :=
  ⟨environment_info_defaults ⟨"base", ["demo"], []⟩ "demo" (Or.inl (by decide)),
   environment_info_defaults ⟨"base", ["demo"], [("demo", .corrupt)]⟩ "demo"
    (Or.inr (by decide))⟩

/-- C8: `get_deactivation_script` returns the literal `"deactivate"` for
every shell argument, every `SHELL` environment value, and every
operating system — the result is shell-invariant. -/
theorem deactivation_shell_invariant (shell : Option String)
    (shellEnv : String) (osIsNt : Bool) :
    getDeactivationScript shell shellEnv osIsNt = "deactivate" := by
  simp [getDeactivationScript]

/-- C9: shell detection consults the `SHELL` value: if it contains any of
the substrings `bash`, `zsh`, `fish`, the result is one of those three
and is itself contained in the value; if it contains none of them, the
result is `"powershell"` on Windows and the fixed default `"bash"`
otherwise; in all cases the detected value is one of the four known
shells. -/
theorem detect_shell_spec (shellEnv : String) (osIsNt : Bool) :
    (detectShell shellEnv osIsNt = "bash" ∨ detectShell shellEnv osIsNt = "zsh"
      ∨ detectShell shellEnv osIsNt = "fish"
      ∨ detectShell shellEnv osIsNt = "powershell")
    ∧ ((containsStr shellEnv "bash" || containsStr shellEnv "zsh"
          || containsStr shellEnv "fish") = true →
        (detectShell shellEnv osIsNt = "bash" ∨ detectShell shellEnv osIsNt = "zsh"
          ∨ detectShell shellEnv osIsNt = "fish")
        ∧ containsStr shellEnv (detectShell shellEnv osIsNt) = true)
    ∧ (containsStr shellEnv "bash" = false → containsStr shellEnv "zsh" = false →
        containsStr shellEnv "fish" = false →
        detectShell shellEnv osIsNt = if osIsNt then "powershell" else "bash") := by
  unfold detectShell
  by_cases hb : containsStr shellEnv "bash" <;>
    by_cases hz : containsStr shellEnv "zsh" <;>
      by_cases hf : containsStr shellEnv "fish" <;>
        cases osIsNt <;> simp [hb, hz, hf]

/-- Witness for C9: `SHELL=/usr/bin/zsh` on a non-Windows system detects
`zsh`; an empty `SHELL` detects `powershell` on Windows and `bash`
elsewhere. -/
theorem detect_shell_spec_witness :
    ((detectShell "/usr/bin/zsh" false = "bash"
        ∨ detectShell "/usr/bin/zsh" false = "zsh"
        ∨ detectShell "/usr/bin/zsh" false = "fish")
      ∧ containsStr "/usr/bin/zsh" (detectShell "/usr/bin/zsh" false) = true)
    ∧ detectShell "" true = (if true then "powershell" else "bash")
    ∧ detectShell "" false = (if false then "powershell" else "bash") :=
  ⟨(detect_shell_spec "/usr/bin/zsh" false).2.1 (by decide),
   (detect_shell_spec "" true).2.2 (by decide) (by decide) (by decide),
   (detect_shell_spec "" false).2.2 (by decide) (by decide) (by decide)⟩

theorem environmentExists_writeMeta (fs : FS) (n m : String) (f : MetaFile) :
    environmentExists (writeMeta fs n f) m = environmentExists fs m := rfl

theorem metaLookup_addDir (fs : FS) (n m : String) :
    metaLookup (addDir fs n) m = metaLookup fs m := by
  unfold metaLookup
  rw [meta_addDir]

/-- C1: if the toolchain subprocess exits non-zero while creating a
previously nonexistent environment, `create` surfaces `CreationFailed`
carrying the toolchain's stderr text, and no environment directory for
that name remains on disk — whether or not the subprocess left a partial
directory behind, it is deleted before the error is raised. -/
theorem create_toolchain_failure_rollback (fs : FS) (name pythonVersion : String)
    (tc : ToolchainResult) (writeErr : Option String) (now : String)
    (hpre : environmentExists fs name = false) (hfail : tc.success = false) :
    (create fs name pythonVersion tc writeErr now).1
      = .error (.creationFailed tc.stderr)
    ∧ environmentExists (create fs name pythonVersion tc writeErr now).2 name
      = false := by
  have h1 := environmentExists_addDir_self fs name
  have h2 := environmentExists_removeDirTree (addDir fs name) name
  unfold create
  by_cases hd : tc.dirCreated <;> simp [hpre, hfail, hd, h1, h2]

/-- Witness for C1: on a fresh base, a failing toolchain run that left a
partial directory ends with `CreationFailed "boom"` and no directory. -/
theorem create_toolchain_failure_rollback_witness :
    (create ⟨"base", [], []⟩ "demo" "3.12" ⟨false, "boom", true⟩ none "t0").1
      = .error (.creationFailed "boom")
    ∧ environmentExists
        (create ⟨"base", [], []⟩ "demo" "3.12" ⟨false, "boom", true⟩ none "t0").2
        "demo" = false :=
  create_toolchain_failure_rollback ⟨"base", [], []⟩ "demo" "3.12"
    ⟨false, "boom", true⟩ none "t0" (by decide) (by decide)

/-- C5: `remove` on a nonexistent name fails with `NotFound` and leaves
the state unchanged; on an existing name a successful deletion removes the
directory tree, so `environment_exists` becomes false and the name no
longer appears in `list()` output; an `OSError` during deletion is
surfaced as `RemovalFailed` wrapping the cause, with no repair attempted. -/
theorem remove_spec (fs : FS) (name : String) :
    (environmentExists fs name = false → ∀ rmErr,
        remove fs name rmErr = (.error (.notFound name), fs))
    ∧ (environmentExists fs name = true →
        remove fs name none = (.ok (), removeDirTree fs name)
        ∧ environmentExists (remove fs name none).2 name = false
        ∧ ∀ r ∈ listEnvs (remove fs name none).2, r.name ≠ name)
    ∧ (environmentExists fs name = true → ∀ e,
        remove fs name (some e) = (.error (.removalFailed e), fs)) := by
  refine ⟨?_, ?_, ?_⟩
  · intro h rmErr
    unfold remove
    simp [h]
  · intro h
    have hrm : remove fs name none = (.ok (), removeDirTree fs name) := by
      unfold remove
      simp [h]
    refine ⟨hrm, ?_, ?_⟩
    · rw [hrm]
      exact environmentExists_removeDirTree fs name
    · rw [hrm]
      intro r hr
      unfold listEnvs listEnvironments at hr
      obtain ⟨d, hd, rfl⟩ := List.mem_map.mp hr
      rw [name_getEnvironmentInfo]
      unfold removeDirTree at hd
      simp only [List.mem_filter] at hd
      simpa using hd.2
  · intro h e
    unfold remove
    simp [h]

/-- Witness for C5 at concrete states: a missing name, a successful
deletion, and a failing deletion. -/
theorem remove_spec_witness :
    remove ⟨"base", [], []⟩ "demo" none
      = (.error (.notFound "demo"), ⟨"base", [], []⟩)
    ∧ remove ⟨"base", ["demo"], []⟩ "demo" none
      = (.ok (), removeDirTree ⟨"base", ["demo"], []⟩ "demo")
    ∧ environmentExists (remove ⟨"base", ["demo"], []⟩ "demo" none).2 "demo"
      = false
    ∧ remove ⟨"base", ["demo"], []⟩ "demo" (some "EACCES")
      = (.error (.removalFailed "EACCES"), ⟨"base", ["demo"], []⟩) :=
  ⟨(remove_spec ⟨"base", [], []⟩ "demo").1 (by decide) none,
   ((remove_spec ⟨"base", ["demo"], []⟩ "demo").2.1 (by decide)).1,
   ((remove_spec ⟨"base", ["demo"], []⟩ "demo").2.1 (by decide)).2.1,
   (remove_spec ⟨"base", ["demo"], []⟩ "demo").2.2 (by decide) "EACCES"⟩

/-- Counterexample to C2 as stated: on a fresh base, a successful
toolchain run followed by a failing metadata write (`OSError`) leaves the
environment directory on disk with no metadata file — the `except`
clause in `create` only catches `subprocess.CalledProcessError`, so no
rollback runs for the metadata-writing step. -/
theorem create_metadata_failure_orphan_cex :
    (create ⟨"base", [], []⟩ "demo" "3.12" ⟨true, "", true⟩
        (some "disk full") "t0").1 = .error (.metadataWriteError "disk full")
    ∧ environmentExists
        (create ⟨"base", [], []⟩ "demo" "3.12" ⟨true, "", true⟩
          (some "disk full") "t0").2 "demo" = true
    ∧ metaLookup
        (create ⟨"base", [], []⟩ "demo" "3.12" ⟨true, "", true⟩
          (some "disk full") "t0").2 "demo" = none := by
  refine ⟨rfl, rfl, rfl⟩

/-- C2 (amended): directory and metadata are created together by a fully
successful `create` and removed together by a successful `remove`; on
toolchain failure the partially created directory is deleted rather than
left orphaned; but if the metadata-writing step fails after the toolchain
succeeded, the error propagates uncaught and the directory remains on
disk without its metadata file (no rollback for that step). -/
theorem metadata_lifecycle (fs : FS) (name pythonVersion now msg : String)
    (tc : ToolchainResult) :
    (environmentExists fs name = false → tc.success = true →
      environmentExists (create fs name pythonVersion tc none now).2 name = true
      ∧ metaLookup (create fs name pythonVersion tc none now).2 name
        = some (.valid (createMetadata name pythonVersion now)))
    ∧ (environmentExists fs name = true →
      environmentExists (remove fs name none).2 name = false
      ∧ metaLookup (remove fs name none).2 name = none)
    ∧ (environmentExists fs name = false → tc.success = false →
      environmentExists (create fs name pythonVersion tc none now).2 name = false)
    ∧ (environmentExists fs name = false → tc.success = true →
      metaLookup fs name = none →
      (create fs name pythonVersion tc (some msg) now).1
        = .error (.metadataWriteError msg)
      ∧ environmentExists (create fs name pythonVersion tc (some msg) now).2 name
        = true
      ∧ metaLookup (create fs name pythonVersion tc (some msg) now).2 name
        = none) := by
  refine ⟨?_, ?_, ?_, ?_⟩
  · intro hpre hsucc
    unfold create
    simp only [hpre, hsucc, Bool.false_eq_true, if_false, if_true]
    exact ⟨environmentExists_addDir_self fs name,
      metaLookup_writeMeta_self (addDir fs name) name _⟩
  · intro h
    unfold remove
    simp only [h, Bool.not_true, Bool.false_eq_true, if_false]
    exact ⟨environmentExists_removeDirTree fs name,
      metaLookup_removeDirTree fs name⟩
  · intro hpre hfail
    have h1 := environmentExists_addDir_self fs name
    have h2 := environmentExists_removeDirTree (addDir fs name) name
    unfold create
    by_cases hd : tc.dirCreated <;> simp [hpre, hfail, hd, h1, h2]
  · intro hpre hsucc hm
    unfold create
    simp only [hpre, hsucc, Bool.false_eq_true, if_false, if_true]
    exact ⟨by trivial, environmentExists_addDir_self fs name,
      (metaLookup_addDir fs name name).trans hm⟩

/-- Witness for the amended C2, at concrete states for each of the four
lifecycle cases. -/
theorem metadata_lifecycle_witness :
    (environmentExists
        (create ⟨"base", [], []⟩ "demo" "3.12" ⟨true, "", true⟩ none "t0").2
        "demo" = true
      ∧ metaLookup
          (create ⟨"base", [], []⟩ "demo" "3.12" ⟨true, "", true⟩ none "t0").2
          "demo" = some (.valid (createMetadata "demo" "3.12" "t0")))
    ∧ (environmentExists (remove ⟨"base", ["demo"], []⟩ "demo" none).2 "demo"
        = false
      ∧ metaLookup (remove ⟨"base", ["demo"], []⟩ "demo" none).2 "demo" = none)
    ∧ environmentExists
        (create ⟨"base", [], []⟩ "demo" "3.12" ⟨false, "boom", true⟩ none "t0").2
        "demo" = false
    ∧ ((create ⟨"base", [], []⟩ "demo" "3.12" ⟨true, "", true⟩
          (some "disk full") "t0").1 = .error (.metadataWriteError "disk full")
      ∧ environmentExists
          (create ⟨"base", [], []⟩ "demo" "3.12" ⟨true, "", true⟩
            (some "disk full") "t0").2 "demo" = true
      ∧ metaLookup
          (create ⟨"base", [], []⟩ "demo" "3.12" ⟨true, "", true⟩
            (some "disk full") "t0").2 "demo" = none) :=
  ⟨(metadata_lifecycle ⟨"base", [], []⟩ "demo" "3.12" "t0" "disk full"
      ⟨true, "", true⟩).1 (by decide) (by decide),
   (metadata_lifecycle ⟨"base", ["demo"], []⟩ "demo" "3.12" "t0" "disk full"
      ⟨true, "", true⟩).2.1 (by decide),
   (metadata_lifecycle ⟨"base", [], []⟩ "demo" "3.12" "t0" "disk full"
      ⟨false, "boom", true⟩).2.2.1 (by decide) (by decide),
   (metadata_lifecycle ⟨"base", [], []⟩ "demo" "3.12" "t0" "disk full"
      ⟨true, "", true⟩).2.2.2 (by decide) (by decide) (by decide)⟩

/-- C4: after a successful `create(name, version)` on a previously
nonexistent name, `list()` contains exactly one record with that name,
and it carries the created python version, status `"inactive"`, and the
resolved path `<base>/<name>`. -/
theorem create_then_list (fs : FS) (name pythonVersion now : String)
    (tc : ToolchainResult) (hpre : environmentExists fs name = false)
    (hsucc : tc.success = true) :
    (create fs name pythonVersion tc none now).1 = .ok ()
    ∧ (listEnvs (create fs name pythonVersion tc none now).2).filter
        (fun r => r.name == name)
      = [{ name := name, path := getEnvPath fs.base name,
           pythonVersion := .str pythonVersion, status := "inactive" }] := by
  have hnm := not_mem_of_not_exists fs name hpre
  unfold create
  simp only [hpre, hsucc, Bool.false_eq_true, if_false, if_true]
  refine ⟨by trivial, ?_⟩
  set fsp := writeMeta (addDir fs name) name
    (.valid (createMetadata name pythonVersion now)) with hfsp
  have hdirs : fsp.dirs = name :: fs.dirs := by
    rw [hfsp]
    show (addDir fs name).dirs = _
    exact dirs_addDir_not_exists fs name hpre
  have hbase : fsp.base = fs.base := by
    rw [hfsp]
    show (addDir fs name).base = _
    exact base_addDir fs name
  have hg : getEnvironmentInfo fsp name =
      { name := name, path := getEnvPath fs.base name,
        pythonVersion := .str pythonVersion, status := "inactive" } := by
    unfold getEnvironmentInfo
    rw [hfsp, metaLookup_writeMeta_self]
    simp [createMetadata, JsonValue.truthy, writeMeta, base_addDir]
  unfold listEnvs listEnvironments
  rw [hdirs, List.map_cons, List.filter_cons]
  rw [hg]
  simp [filter_name_eq_nil fsp name fs.dirs hnm]

/-- Witness for C4: the spec's concrete example on a fresh base —
`create("demo", "3.12")` then `list()` yields exactly the one expected
record, and the metadata file records python version 3.12 and
`active = false`. -/
theorem create_then_list_witness :
    (create ⟨"base", [], []⟩ "demo" "3.12" ⟨true, "", true⟩ none "t0").1 = .ok ()
    ∧ (listEnvs
        (create ⟨"base", [], []⟩ "demo" "3.12" ⟨true, "", true⟩ none "t0").2).filter
        (fun r => r.name == "demo")
      = [{ name := "demo", path := getEnvPath "base" "demo",
           pythonVersion := .str "3.12", status := "inactive" }]
    ∧ listEnvs
        (create ⟨"base", [], []⟩ "demo" "3.12" ⟨true, "", true⟩ none "t0").2
      = [{ name := "demo", path := "base/demo",
           pythonVersion := .str "3.12", status := "inactive" }]
    ∧ metaLookup
        (create ⟨"base", [], []⟩ "demo" "3.12" ⟨true, "", true⟩ none "t0").2
        "demo"
      = some (.valid ⟨some (.str "demo"), some (.str "3.12"),
          some (.str "t0"), some .null, some (.bool false)⟩) :=
  ⟨(create_then_list ⟨"base", [], []⟩ "demo" "3.12" "t0" ⟨true, "", true⟩
      (by decide) (by decide)).1,
   (create_then_list ⟨"base", [], []⟩ "demo" "3.12" "t0" ⟨true, "", true⟩
      (by decide) (by decide)).2,
   by decide, by decide⟩

/-- C7: for an existing environment, `get_activation_script` with
`shell="fish"` returns a command referencing `activate.fish`, with
`"powershell"` a command referencing `Activate.ps1`, and with `"bash"`,
`"zsh"`, or any unrecognized shell string a `source`-style command
referencing `activate`; for a nonexistent environment it fails with
`NotFound` regardless of the shell argument. -/
theorem activation_script_spec (fs : FS) (name shellEnv : String)
    (osIsNt : Bool) :
    (environmentExists fs name = true →
      getActivationScript fs name (some "fish") shellEnv osIsNt
        = .ok ("source " ++ getEnvBinPath fs.base name ++ "/activate.fish")
      ∧ getActivationScript fs name (some "powershell") shellEnv osIsNt
        = .ok ("& " ++ getEnvBinPath fs.base name ++ "/Activate.ps1")
      ∧ getActivationScript fs name (some "bash") shellEnv osIsNt
        = .ok ("source " ++ getEnvBinPath fs.base name ++ "/activate")
      ∧ getActivationScript fs name (some "zsh") shellEnv osIsNt
        = .ok ("source " ++ getEnvBinPath fs.base name ++ "/activate")
      ∧ ∀ sh : String, sh ≠ "bash" → sh ≠ "zsh" → sh ≠ "fish" →
          sh ≠ "powershell" →
          getActivationScript fs name (some sh) shellEnv osIsNt
            = .ok ("source " ++ getEnvBinPath fs.base name ++ "/activate"))
    ∧ (environmentExists fs name = false → ∀ shell : Option String,
        getActivationScript fs name shell shellEnv osIsNt
          = .error (.notFound name)) := by
  constructor
  · intro h
    refine ⟨?_, ?_, ?_, ?_, ?_⟩
    · unfold getActivationScript
      simp [h, generateFishScript]
    · unfold getActivationScript
      simp [h, generatePowershellScript]
    · unfold getActivationScript
      simp [h, generateBashScript]
    · unfold getActivationScript
      simp [h, generateBashScript]
    · intro sh h1 h2 h3 h4
      unfold getActivationScript
      simp [h, h1, h2, h3, h4, generateBashScript]
  · intro h shell
    unfold getActivationScript
    simp [h]

/-- Witness for C7 at a concrete state: each shell's script for an
existing environment (including the unrecognized shell `"tcsh"`), and
`NotFound` for a missing one. -/
theorem activation_script_spec_witness :
    getActivationScript ⟨"base", ["demo"], []⟩ "demo" (some "fish") "" false
      = .ok ("source " ++ getEnvBinPath "base" "demo" ++ "/activate.fish")
    ∧ getActivationScript ⟨"base", ["demo"], []⟩ "demo" (some "powershell") ""
        false
      = .ok ("& " ++ getEnvBinPath "base" "demo" ++ "/Activate.ps1")
    ∧ getActivationScript ⟨"base", ["demo"], []⟩ "demo" (some "tcsh") "" false
      = .ok ("source " ++ getEnvBinPath "base" "demo" ++ "/activate")
    ∧ getActivationScript ⟨"base", [], []⟩ "demo" (some "fish") "" false
      = .error (.notFound "demo")
    ∧ getActivationScript ⟨"base", [], []⟩ "demo" none "" false
      = .error (.notFound "demo") :=
  ⟨((activation_script_spec ⟨"base", ["demo"], []⟩ "demo" "" false).1
      (by decide)).1,
   ((activation_script_spec ⟨"base", ["demo"], []⟩ "demo" "" false).1
      (by decide)).2.1,
   ((activation_script_spec ⟨"base", ["demo"], []⟩ "demo" "" false).1
      (by decide)).2.2.2.2 "tcsh" (by decide) (by decide) (by decide)
      (by decide),
   (activation_script_spec ⟨"base", [], []⟩ "demo" "" false).2 (by decide)
      (some "fish"),
   (activation_script_spec ⟨"base", [], []⟩ "demo" "" false).2 (by decide)
      none⟩

/-- C10: every record returned by `list()` (an `EnvInfo`, which has
exactly the fields `name`, `path`, `python_version`, `status`) has
`status` equal to `"active"` or `"inactive"`, derived solely from the
truthiness of the metadata `active` field (default false), and `path`
equal to the resolved environment root for its name. -/
theorem list_record_invariants (fs : FS) (r : EnvInfo)
    (hr : r ∈ listEnvs fs) :
    r.path = getEnvPath fs.base r.name
    ∧ (r.status = "active" ∨ r.status = "inactive")
    ∧ r.status
      = (if (activeField fs r.name).truthy then "active" else "inactive") := by
  unfold listEnvs listEnvironments at hr
  obtain ⟨d, hd, rfl⟩ := List.mem_map.mp hr
  rw [name_getEnvironmentInfo]
  have hstat : (getEnvironmentInfo fs d).status
      = (if (activeField fs d).truthy then "active" else "inactive") := by
    unfold getEnvironmentInfo activeField
    cases hm : metaLookup fs d with
    | none => simp [JsonValue.truthy]
    | some mf =>
        cases mf with
        | corrupt => simp [JsonValue.truthy]
        | valid dict => simp
  refine ⟨base_getEnvironmentInfo fs d, ?_, hstat⟩
  rw [hstat]
  by_cases hc : (activeField fs d).truthy <;> simp [hc]

/-- Witness for C10 at a concrete state with `active = true` metadata:
the record's path is the resolved root and its status is `"active"`. -/
theorem list_record_invariants_witness :
    (getEnvironmentInfo
        ⟨"base", ["demo"], [("demo", .valid ⟨none, none, none, none,
          some (.bool true)⟩)]⟩ "demo").path
      = getEnvPath "base"
          (getEnvironmentInfo
            ⟨"base", ["demo"], [("demo", .valid ⟨none, none, none, none,
              some (.bool true)⟩)]⟩ "demo").name
    ∧ ((getEnvironmentInfo
          ⟨"base", ["demo"], [("demo", .valid ⟨none, none, none, none,
            some (.bool true)⟩)]⟩ "demo").status = "active"
        ∨ (getEnvironmentInfo
            ⟨"base", ["demo"], [("demo", .valid ⟨none, none, none, none,
              some (.bool true)⟩)]⟩ "demo").status = "inactive") :=
  ⟨(list_record_invariants
      ⟨"base", ["demo"], [("demo", .valid ⟨none, none, none, none,
        some (.bool true)⟩)]⟩
      (getEnvironmentInfo
        ⟨"base", ["demo"], [("demo", .valid ⟨none, none, none, none,
          some (.bool true)⟩)]⟩ "demo") (by decide)).1,
   (list_record_invariants
      ⟨"base", ["demo"], [("demo", .valid ⟨none, none, none, none,
        some (.bool true)⟩)]⟩
      (getEnvironmentInfo
        ⟨"base", ["demo"], [("demo", .valid ⟨none, none, none, none,
          some (.bool true)⟩)]⟩ "demo") (by decide)).2.1⟩

end Uvenv
